import Mathlib

/-!
Verification of the `bolts` typed route registry (`src/router.rs`).

Strings are modelled as `List Char`.  The three `lazy_static` regexes of
`Router::route` are embedded verbatim as regular-expression ASTs and decided
with a Brzozowski-derivative matcher.  `HashMap` is modelled as an association
list whose `insert` replaces the value of an existing key in place (so `len`
is the number of distinct keys, as for the Rust `HashMap`).  Handler function
pointers (`Endpoint`) are abstracted as `Nat` identifiers; nothing in the
router inspects them.
-/

set_option autoImplicit false

namespace Bolts

/-- Regular expressions over `Char`, with character classes as predicates. -/
inductive Rx where
  | fail : Rx
  | eps : Rx
  | chr : (Char → Bool) → Rx
  | cat : Rx → Rx → Rx
  | alt : Rx → Rx → Rx
  | star : Rx → Rx

namespace Rx

/-- Does the regex accept the empty string? -/
def nullable : Rx → Bool
  | .fail => false
  | .eps => true
  | .chr _ => false
  | .cat a b => a.nullable && b.nullable
  | .alt a b => a.nullable || b.nullable
  | .star _ => true

/-- Smart concatenation: identical language to `cat`, keeps derivatives small. -/
def scat : Rx → Rx → Rx
  | .fail, _ => .fail
  | .eps, b => b
  | _, .fail => .fail
  | a, .eps => a
  | a, b => .cat a b

/-- Smart alternation: identical language to `alt`, keeps derivatives small. -/
def salt : Rx → Rx → Rx
  | .fail, b => b
  | a, .fail => a
  | a, b => .alt a b

/-- Brzozowski derivative: the residual language after consuming `c`. -/
def deriv : Rx → Char → Rx
  | .fail, _ => .fail
  | .eps, _ => .fail
  | .chr p, c => if p c then .eps else .fail
  | .cat a b, c =>
      if a.nullable then salt (scat (a.deriv c) b) (b.deriv c)
      else scat (a.deriv c) b
  | .alt a b, c => salt (a.deriv c) (b.deriv c)
  | .star a, c => scat (a.deriv c) (.star a)

/-- Anchored (whole-string) regex matching, as Rust's `\A...\z` regexes do. -/
def rmatch : Rx → List Char → Bool
  | r, [] => r.nullable
  | r, c :: cs => (r.deriv c).rmatch cs

/-- `r+` -/
def plus (r : Rx) : Rx := .cat r (.star r)

/-- `r?` -/
def opt (r : Rx) : Rx := .alt r .eps

end Rx

/-- The `\s` class of the Rust regexes, restricted to its ASCII members (the
only whitespace any input in this development contains). -/
def isWs (c : Char) : Bool :=
  c == ' ' || c == '\t' || c == '\n' || c == '\r' || c == '\x0b' || c == '\x0c'

/-- `[^;#:\s/]` — a plain path-segment character. -/
def segChar (c : Char) : Bool :=
  !(c == ';' || c == '#' || c == ':' || isWs c || c == '/')

/-- `[:#;]` — a placeholder marker. -/
def markerChar (c : Char) : Bool :=
  c == ':' || c == '#' || c == ';'

/-- `REG = \A(/[^;#:\s/]+|/[:#;][^;#:\s/]+)*/?\z` — the path-format regex. -/
def pathReg : Rx :=
  .cat
    (.star (.alt
      (.cat (.chr (· == '/')) (Rx.plus (.chr segChar)))
      (.cat (.chr (· == '/')) (.cat (.chr markerChar) (Rx.plus (.chr segChar))))))
    (Rx.opt (.chr (· == '/')))

/-- `[^\.\*\s]` — first character class of the domain regex. -/
def domXChar (c : Char) : Bool :=
  !(c == '.' || c == '*' || isWs c)

/-- `[^\.\s]` — second character class of the domain regex (note: allows `*`). -/
def domYChar (c : Char) : Bool :=
  !(c == '.' || isWs c)

/-- `DOM_REG_SIMPLE = \A([^\.\*\s]+\.[^\.\s]+)+\z`. -/
def domSimpleReg : Rx :=
  Rx.plus (.cat (Rx.plus (.chr domXChar))
    (.cat (.chr (· == '.')) (Rx.plus (.chr domYChar))))

/-- `DOM_REG_WILDCARD = \A\*\.([^\.\*\s]+\.[^\.\s]+)+\z`. -/
def domWildReg : Rx :=
  .cat (.chr (· == '*')) (.cat (.chr (· == '.')) domSimpleReg)

/-- Rust's `str::split(sep)`: splits on every separator, keeping empty pieces
(`"".split('/')` is `[""]`, `"/a/".split('/')` is `["", "a", ""]`). -/
def splitChar (sep : Char) : List Char → List (List Char)
  | [] => [[]]
  | c :: cs =>
      let r := splitChar sep cs
      if c = sep then [] :: r
      else
        match r with
        | h :: t => (c :: h) :: t
        | [] => [[c]]

/-- The tokens the registration loop actually processes: `path.split('/')`
with empty tokens skipped (`if token.len() == 0 { continue; }`). -/
def tokensOf (path : List Char) : List (List Char) :=
  (splitChar '/' path).filter (fun t => t ≠ [])

/-- `Verb` (src/router.rs). -/
inductive Verb where
  | Get | Post | Put | Patch | Delete | Head
deriving DecidableEq

/-- `RouteVar` (src/router.rs): a placeholder's kind together with its name. -/
inductive RouteVar where
  | Int : List Char → RouteVar
  | Float : List Char → RouteVar
  | String : List Char → RouteVar
deriving DecidableEq

/-- `RoutePart` (src/router.rs): one canonical-key segment. -/
inductive RoutePart where
  | Path : List Char → RoutePart
  | Int : RoutePart
  | Float : RoutePart
  | String : RoutePart
deriving DecidableEq

/-- `RouteKey` (src/router.rs). -/
structure RouteKey where
  domain : Option (List Char)
  parts : List RoutePart
  verb : Verb
deriving DecidableEq

/-- `Route` (src/router.rs); the `Endpoint` function pointer is abstracted as
a `Nat` identifier. -/
structure Route where
  domain : Option (List Char)
  vars : List RouteVar
  verb : Verb
  target : Nat
deriving DecidableEq

/-- `HashMap::insert`: replace the value of an existing key, else append. -/
def insertRoute : List (RouteKey × Route) → RouteKey → Route → List (RouteKey × Route)
  | [], k, v => [(k, v)]
  | (k', v') :: rest, k, v =>
      if k' = k then (k, v) :: rest else (k', v') :: insertRoute rest k v

/-- `HashMap::get`-style lookup. -/
def lookupRoute : List (RouteKey × Route) → RouteKey → Option Route
  | [], _ => none
  | (k', v') :: rest, k => if k' = k then some v' else lookupRoute rest k

/-- `Router` (src/router.rs). -/
structure Router where
  routes : List (RouteKey × Route)
deriving DecidableEq

/-- The empty router (`Router::new`). -/
def Router.new : Router := ⟨[]⟩

/-- The token-classification loop of `Router::route`: each non-empty token is
classified by its first character (`:` integer, `#` string, `;` float, else
literal), pushing onto `route_key.parts` and, for placeholders, `route.vars`
with the name `&token[1..]`. -/
def buildParts : List (List Char) → List RoutePart × List RouteVar
  | [] => ([], [])
  | tok :: rest =>
      let pv := buildParts rest
      match tok with
      | [] => (.Path tok :: pv.1, pv.2)
      | c :: name =>
          if c = ':' then (.Int :: pv.1, .Int name :: pv.2)
          else if c = '#' then (.String :: pv.1, .String name :: pv.2)
          else if c = ';' then (.Float :: pv.1, .Float name :: pv.2)
          else (.Path tok :: pv.1, pv.2)

/-- `dom.to_lowercase()` (ASCII-relevant part). -/
def lowerStr (s : List Char) : List Char := s.map Char.toLower

/-- The domain validation of `Router::route`: lowercase, then require one of
the two domain regexes to match. -/
def domainCheck : Option (List Char) → Option (Option (List Char))
  | none => some none
  | some dom =>
      let dom := lowerStr dom
      if !(Rx.rmatch domSimpleReg dom) && !(Rx.rmatch domWildReg dom) then none
      else some (some dom)

/-- `Router::route` (src/router.rs, lines 192–264).  Returns the `Result`
together with the router after the call (Rust mutates `self`).  Note that the
duplicate check happens *after* `HashMap::insert`: on a duplicate key the
stored route has already been replaced when the error is returned, exactly as
in the source. -/
def Router.route (r : Router) (domain : Option (List Char)) (verb : Verb)
    (path : List Char) (target : Nat) : Except String Unit × Router :=
  if !(Rx.rmatch pathReg path) then (.error "invalid route format!", r)
  else
    match domainCheck domain with
    | none => (.error "invalid domain!", r)
    | some dom =>
        let pv := buildParts (tokensOf path)
        let key : RouteKey := ⟨dom, pv.1, verb⟩
        let rt : Route := ⟨dom, pv.2, verb, target⟩
        let size := r.routes.length
        let routes' := insertRoute r.routes key rt
        if size ≠ routes'.length - 1 then
          (.error "a route identical to this one has already been defined!", ⟨routes'⟩)
        else
          (.ok (), ⟨routes'⟩)

deriving instance DecidableEq for Except

/-- `UrlParam` (src/router.rs): a captured value.  `f64` cannot be embedded
faithfully; since no claim depends on float arithmetic, a `Float` capture is
represented by the literal text it was parsed from. -/
inductive UrlParam where
  | String : List Char → UrlParam
  | Int : Int → UrlParam
  | Float : List Char → UrlParam
deriving DecidableEq

/-- `HashMap::insert` for the parameter bag: replace an existing key's value
in place, else append. -/
def insertParam : List (List Char × UrlParam) → List Char → UrlParam →
    List (List Char × UrlParam)
  | [], k, v => [(k, v)]
  | (k', v') :: rest, k, v =>
      if k' = k then (k, v) :: rest else (k', v') :: insertParam rest k v

/-- `UrlParams` (src/router.rs): the parameter bag, a `HashMap` from
placeholder name to captured value. -/
structure UrlParams where
  hashmap : List (List Char × UrlParam)
deriving DecidableEq

/-- `UrlParams::new`. -/
def UrlParams.new : UrlParams := ⟨[]⟩

/-- `UrlParams::add` (`HashMap::insert`; a repeated key replaces the value). -/
def UrlParams.add (p : UrlParams) (k : List Char) (v : UrlParam) : UrlParams :=
  ⟨insertParam p.hashmap k v⟩

/-- `HashMap` lookup for the parameter bag. -/
def lookupParam : List (List Char × UrlParam) → List Char → Option UrlParam
  | [], _ => none
  | (k', v') :: rest, k => if k' = k then some v' else lookupParam rest k

/-- The lookup behind `Index<&'static str> for UrlParams` (`none` models the
panic on a missing key). -/
def UrlParams.get? (p : UrlParams) (k : List Char) : Option UrlParam :=
  lookupParam p.hashmap k

/-- All-digit string to `Nat`. -/
def digitsToNat? : List Char → Option Nat
  | [] => none
  | cs =>
      if cs.all Char.isDigit then
        some (cs.foldl (fun n c => n * 10 + (c.toNat - '0'.toNat)) 0)
      else none

/-- Modelled from the spec (§4.3): 64-bit signed integer candidacy for a
concrete path segment — an optional leading `-` followed by digits only, value
inside the `i64` range; a leading `+`, fractional text, residual characters
and out-of-range values are rejected. -/
def parseI64 : List Char → Option Int
  | '-' :: rest =>
      (digitsToNat? rest).bind fun n =>
        if n ≤ 2 ^ 63 then some (-(n : Int)) else none
  | s =>
      (digitsToNat? s).bind fun n =>
        if n ≤ 2 ^ 63 - 1 then some (n : Int) else none

/-- Modelled from the spec (§4.3): finite-float candidacy for a concrete path
segment — an optional leading `-`, then a decimal literal (digits with at most
one `.` and at least one digit); `NaN`/`Inf` tokens are not of this form and
so fall through to `String`. -/
def parsesFloat (s : List Char) : Bool :=
  let t := match s with
    | '-' :: r => r
    | r => r
  match splitChar '.' t with
  | [a] => !a.isEmpty && a.all Char.isDigit
  | [a, b] => (!a.isEmpty || !b.isEmpty) && a.all Char.isDigit && b.all Char.isDigit
  | _ => false

/-- Modelled from the spec (§4.3 step 2): the candidate kinds of one concrete
segment, in strict specificity order Literal, Int, Float, String. -/
def candidateKinds (seg : List Char) : List RoutePart :=
  [RoutePart.Path seg]
    ++ (if (parseI64 seg).isSome then [RoutePart.Int] else [])
    ++ (if parsesFloat seg then [RoutePart.Float] else [])
    ++ [RoutePart.String]

/-- Modelled from the spec (§4.3 step 3): all candidate part sequences in
depth-first, left-to-right, specificity-first order. -/
def kindProducts : List (List Char) → List (List RoutePart)
  | [] => [[]]
  | seg :: rest =>
      (candidateKinds seg).flatMap fun k => (kindProducts rest).map (k :: ·)

/-- The suffixes of `d` that follow a `'.'`, longest first. -/
def dotSuffixes : List Char → List (List Char)
  | [] => []
  | c :: cs => (if c = '.' then [cs] else []) ++ dotSuffixes cs

/-- Modelled from the spec (§4.3 step 4 and glossary): the registered-domain
candidates for a request, most specific first — the exact (lowercased) request
domain, then the wildcard domains `*.base` it matches (`base` the domain
itself or any of its dot-suffixes), then `None` (which matches any request). -/
def domainCandidates : Option (List Char) → List (Option (List Char))
  | none => [none]
  | some d =>
      let d := lowerStr d
      some ('*' :: '.' :: d) :: (dotSuffixes d).map (fun s => some ('*' :: '.' :: s))
        |> (some d :: ·)
        |> (· ++ [none])

/-- Modelled from the spec (§4.3 step 5): the captured value of one matched
segment, `none` for a literal. -/
def capture : RoutePart → List Char → Option UrlParam
  | .Path _, _ => none
  | .Int, seg => (parseI64 seg).map UrlParam.Int
  | .Float, seg => some (UrlParam.Float seg)
  | .String, seg => some (UrlParam.String seg)

/-- The name stored in a `RouteVar`. -/
def RouteVar.name : RouteVar → List Char
  | .Int n => n
  | .Float n => n
  | .String n => n

/-- Modelled from the spec (§4.3 step 5): the parameter bag of a hit — the
winning key's non-literal segments produce captured values, paired in order
with the route's placeholder names. -/
def buildBag (vars : List RouteVar) (parts : List RoutePart)
    (segs : List (List Char)) : UrlParams :=
  let caps := ((parts.zip segs).filterMap fun pr => capture pr.1 pr.2)
  ((vars.map RouteVar.name).zip caps).foldl (fun bag pr => bag.add pr.1 pr.2)
    UrlParams.new

/-- First candidate part sequence whose key is registered under `dom`. -/
def probeParts (r : Router) (verb : Verb) (dom : Option (List Char)) :
    List (List RoutePart) → Option (List RoutePart × Route)
  | [] => none
  | parts :: rest =>
      match lookupRoute r.routes ⟨dom, parts, verb⟩ with
      | some rt => some (parts, rt)
      | none => probeParts r verb dom rest

/-- First domain candidate yielding a hit. -/
def probeDomains (r : Router) (verb : Verb) (prods : List (List RoutePart)) :
    List (Option (List Char)) → Option (List RoutePart × Route)
  | [] => none
  | dom :: rest =>
      match probeParts r verb dom prods with
      | some hit => some hit
      | none => probeDomains r verb prods rest

/-- Modelled from the spec: `Router::find` is exercised by
`src/src/tests/router_tests.rs` (`test_router_find`) but its implementation is
not under `src/`; this follows §4.3 of the spec — split the concrete path as
the registration grammar would, probe the registry over per-segment candidate
kinds in specificity order (Literal, Int, Float, String; depth-first,
left-to-right) and over domain candidates (exact, then wildcard, then `None`),
and on the first hit return the route with the parameter bag; otherwise
`NotFound`. -/
def Router.find (r : Router) (verb : Verb) (path : List Char)
    (reqDomain : Option (List Char)) : Except String (Route × UrlParams) :=
  let segs := tokensOf path
  let prods := kindProducts segs
  match probeDomains r verb prods (domainCandidates reqDomain) with
  | some (parts, rt) => .ok (rt, buildBag rt.vars parts segs)
  | none => .error "not found!"

/-! ### Infrastructure lemmas -/

theorem rmatch_fail (cs : List Char) : Rx.rmatch .fail cs = false := by
  induction cs with
  | nil => rfl
  | cons c cs ih => simpa [Rx.rmatch, Rx.deriv] using ih

theorem pathReg_head_not_slash {c : Char} (h : c ≠ '/') (cs : List Char) :
    Rx.rmatch pathReg (c :: cs) = false := by
  have hc : (c == '/') = false := by simp [h]
  show Rx.rmatch (pathReg.deriv c) cs = false
  have hd : pathReg.deriv c = .fail := by
    simp [pathReg, Rx.deriv, Rx.nullable, Rx.plus, Rx.opt, Rx.scat, Rx.salt, hc]
  rw [hd]
  exact rmatch_fail cs

theorem splitChar_ne_nil (sep : Char) (s : List Char) : splitChar sep s ≠ [] := by
  induction s with
  | nil => simp [splitChar]
  | cons c cs ih =>
    simp only [splitChar]
    split
    · simp
    · split <;> simp

theorem splitChar_append_sep (sep : Char) (s : List Char) :
    splitChar sep (s ++ [sep]) = splitChar sep s ++ [[]] := by
  induction s with
  | nil => simp [splitChar]
  | cons c cs ih =>
    by_cases hc : c = sep
    · simp [splitChar, hc, ih]
    · simp only [List.cons_append, splitChar, hc, if_false, ih]
      cases hsc : splitChar sep cs with
      | nil => exact absurd hsc (splitChar_ne_nil sep cs)
      | cons h t => simp only [List.append_eq]; rw [ih, hsc]; simp

theorem tokensOf_append_slash (p : List Char) : tokensOf (p ++ ['/']) = tokensOf p := by
  simp [tokensOf, splitChar_append_sep, List.filter_append]

theorem lookupRoute_insertRoute_self (l : List (RouteKey × Route)) (k : RouteKey)
    (v : Route) : lookupRoute (insertRoute l k v) k = some v := by
  induction l with
  | nil => simp [insertRoute, lookupRoute]
  | cons p rest ih =>
    obtain ⟨k', v'⟩ := p
    by_cases h : k' = k
    · simp [insertRoute, lookupRoute, h]
    · simp [insertRoute, lookupRoute, h, ih]

theorem length_insertRoute_of_mem {l : List (RouteKey × Route)} {k : RouteKey}
    {w : Route} (h : lookupRoute l k = some w) (v : Route) :
    (insertRoute l k v).length = l.length := by
  induction l with
  | nil => simp [lookupRoute] at h
  | cons p rest ih =>
    obtain ⟨k', v'⟩ := p
    by_cases hk : k' = k
    · simp [insertRoute, hk]
    · simp only [lookupRoute, hk, if_false] at h
      simp [insertRoute, hk, ih h]

theorem length_insertRoute_of_not_mem {l : List (RouteKey × Route)} {k : RouteKey}
    (h : lookupRoute l k = none) (v : Route) :
    (insertRoute l k v).length = l.length + 1 := by
  induction l with
  | nil => simp [insertRoute]
  | cons p rest ih =>
    obtain ⟨k', v'⟩ := p
    by_cases hk : k' = k
    · simp [lookupRoute, hk] at h
    · simp only [lookupRoute, hk, if_false] at h
      simp [insertRoute, hk, ih h]

theorem length_pos_of_lookup {l : List (RouteKey × Route)} {k : RouteKey} {w : Route}
    (h : lookupRoute l k = some w) : 0 < l.length := by
  cases l with
  | nil => simp [lookupRoute] at h
  | cons p rest => simp

theorem mem_insertRoute {l : List (RouteKey × Route)} {k : RouteKey} {v : Route}
    {p : RouteKey × Route} (h : p ∈ insertRoute l k v) : p = (k, v) ∨ p ∈ l := by
  induction l with
  | nil => simpa [insertRoute] using h
  | cons q rest ih =>
    obtain ⟨k', v'⟩ := q
    by_cases hk : k' = k
    · simp only [insertRoute, if_pos hk] at h
      rcases List.mem_cons.mp h with h' | h'
      · exact Or.inl h'
      · exact Or.inr (List.mem_cons_of_mem _ h')
    · simp only [insertRoute, if_neg hk] at h
      rcases List.mem_cons.mp h with h' | h'
      · exact Or.inr (by simp [h'])
      · rcases ih h' with h2 | h2
        · exact Or.inl h2
        · exact Or.inr (List.mem_cons_of_mem _ h2)

/-- A successful `route` call implies: the path passed the format regex, the
domain passed validation, the canonical key was absent, and the new router is
the old one with the key/route pair inserted. -/
theorem route_ok_elim {r r' : Router} {d : Option (List Char)} {v : Verb}
    {path : List Char} {t : Nat}
    (h : Router.route r d v path t = (.ok (), r')) :
    Rx.rmatch pathReg path = true ∧
    ∃ dom, domainCheck d = some dom ∧
      lookupRoute r.routes ⟨dom, (buildParts (tokensOf path)).1, v⟩ = none ∧
      r'.routes = insertRoute r.routes ⟨dom, (buildParts (tokensOf path)).1, v⟩
        ⟨dom, (buildParts (tokensOf path)).2, v, t⟩ := by
  unfold Router.route at h
  by_cases hm : Rx.rmatch pathReg path
  · refine ⟨hm, ?_⟩
    rw [hm] at h
    simp only [Bool.not_true, Bool.false_eq_true, if_false] at h
    cases hd : domainCheck d with
    | none => rw [hd] at h; simp [Prod.ext_iff] at h
    | some dom =>
        rw [hd] at h
        simp only at h
        refine ⟨dom, rfl, ?_⟩
        cases hl : lookupRoute r.routes ⟨dom, (buildParts (tokensOf path)).1, v⟩ with
        | some rt =>
            exfalso
            have hlen := length_insertRoute_of_mem hl
              ⟨dom, (buildParts (tokensOf path)).2, v, t⟩
            have hpos := length_pos_of_lookup hl
            rw [if_pos (by omega)] at h
            simp [Prod.ext_iff] at h
        | none =>
            have hlen := length_insertRoute_of_not_mem hl
              ⟨dom, (buildParts (tokensOf path)).2, v, t⟩
            rw [if_neg (by omega)] at h
            have := congrArg Prod.snd h
            simp at this
            exact ⟨rfl, by rw [← this]⟩
  · rw [Bool.not_eq_true] at hm
    rw [hm] at h
    simp [Prod.ext_iff] at h

/-- Registering a path whose canonical key is already present returns the
duplicate error and leaves the number of routes unchanged (though the stored
route has been overwritten — see the C3 analysis). -/
theorem route_dup {r : Router} {d : Option (List Char)} {v : Verb}
    {path : List Char} {dom : Option (List Char)} {rt : Route}
    (hm : Rx.rmatch pathReg path = true)
    (hd : domainCheck d = some dom)
    (hl : lookupRoute r.routes ⟨dom, (buildParts (tokensOf path)).1, v⟩ = some rt)
    (t : Nat) :
    (Router.route r d v path t).1 =
      .error "a route identical to this one has already been defined!" ∧
    (Router.route r d v path t).2.routes.length = r.routes.length := by
  unfold Router.route
  rw [hm]
  simp only [Bool.not_true, Bool.false_eq_true, if_false, hd]
  have hlen := length_insertRoute_of_mem hl ⟨dom, (buildParts (tokensOf path)).2, v, t⟩
  have hpos := length_pos_of_lookup hl
  rw [if_pos (by omega)]
  exact ⟨rfl, by simpa using hlen⟩

/-- The kind tag of a `RouteVar`, as a non-literal `RoutePart`. -/
def RouteVar.kind : RouteVar → RoutePart
  | .Int _ => .Int
  | .Float _ => .Float
  | .String _ => .String

/-- The non-literal kind of a key part (`none` for a literal). -/
def RoutePart.varKind : RoutePart → Option RoutePart
  | .Path _ => none
  | .Int => some .Int
  | .Float => some .Float
  | .String => some .String

/-- A key/route pair is aligned when the route's placeholder list has exactly
one entry per non-literal key part, in order and of the same kind. -/
def Aligned (k : RouteKey) (rt : Route) : Prop :=
  k.parts.filterMap RoutePart.varKind = rt.vars.map RouteVar.kind

/-- Every stored key/route pair of the router is aligned. -/
def RouterInv (r : Router) : Prop :=
  ∀ p ∈ r.routes, Aligned p.1 p.2

/-- The tokenization loop always produces aligned parts and vars. -/
theorem buildParts_aligned (toks : List (List Char)) :
    (buildParts toks).1.filterMap RoutePart.varKind =
      (buildParts toks).2.map RouteVar.kind := by
  induction toks with
  | nil => rfl
  | cons tok rest ih =>
    cases tok with
    | nil => simpa [buildParts, RoutePart.varKind] using ih
    | cons c name =>
      by_cases h1 : c = ':'
      · simpa [buildParts, h1, RoutePart.varKind, RouteVar.kind] using ih
      · by_cases h2 : c = '#'
        · simpa [buildParts, h1, h2, RoutePart.varKind, RouteVar.kind] using ih
        · by_cases h3 : c = ';'
          · simpa [buildParts, h1, h2, h3, RoutePart.varKind, RouteVar.kind] using ih
          · simpa [buildParts, h1, h2, h3, RoutePart.varKind] using ih

theorem lookupParam_insertParam_self (l : List (List Char × UrlParam))
    (k : List Char) (v : UrlParam) : lookupParam (insertParam l k v) k = some v := by
  induction l with
  | nil => simp [insertParam, lookupParam]
  | cons p rest ih =>
    obtain ⟨k', v'⟩ := p
    by_cases h : k' = k
    · simp [insertParam, lookupParam, h]
    · simp [insertParam, lookupParam, h, ih]

theorem lookupParam_insertParam_other {k k' : List Char} (h : k' ≠ k)
    (l : List (List Char × UrlParam)) (v : UrlParam) :
    lookupParam (insertParam l k v) k' = lookupParam l k' := by
  induction l with
  | nil => simp [insertParam, lookupParam, Ne.symm h]
  | cons p rest ih =>
    obtain ⟨k0, v0⟩ := p
    by_cases hk : k0 = k
    · subst hk
      simp [insertParam, lookupParam, Ne.symm h]
    · simp [insertParam, lookupParam, hk, ih]

/-! ### Claim theorems -/

/-- C1, counterexample: the claim says registering `/a/b/` and then `/a/b`
(same verb, no domain) are two distinct routes so the second registration
succeeds; in the code both canonicalize to the same key (empty tokens are
skipped) and the second registration fails as a duplicate. -/
theorem C1_counterexample :
    ((Router.new.route none .Get "/a/b/".data 0).2.route none .Get "/a/b".data 1).1 =
      .error "a route identical to this one has already been defined!" := by
  decide

/-- C1, amended: trailing-slash and non-trailing-slash variants of the same
pattern canonicalize to the *same* route key, so after registering the
trailing-slash variant, registering the variant without the trailing slash
(same verb and domain) fails as a duplicate. -/
theorem C1_trailing_slash_same_key (r r1 : Router) (d : Option (List Char))
    (v : Verb) (p : List Char) (t1 t2 : Nat)
    (hok : Router.route r d v (p ++ ['/']) t1 = (.ok (), r1))
    (hp : Rx.rmatch pathReg p = true) :
    (buildParts (tokensOf (p ++ ['/']))).1 = (buildParts (tokensOf p)).1 ∧
    (Router.route r1 d v p t2).1 =
      .error "a route identical to this one has already been defined!" := by
  obtain ⟨hm, dom, hd, hl, hr⟩ := route_ok_elim hok
  have htok : tokensOf (p ++ ['/']) = tokensOf p := tokensOf_append_slash p
  refine ⟨by rw [htok], ?_⟩
  have hl2 : lookupRoute r1.routes ⟨dom, (buildParts (tokensOf p)).1, v⟩ =
      some ⟨dom, (buildParts (tokensOf p)).2, v, t1⟩ := by
    rw [hr, htok]
    exact lookupRoute_insertRoute_self _ _ _
  exact (route_dup hp hd hl2 t2).1

/-- C1, witness for the amended theorem at `p = "/a/b"`. -/
theorem C1_witness :
    (buildParts (tokensOf ("/a/b".data ++ ['/']))).1 = (buildParts (tokensOf "/a/b".data)).1 ∧
    ((Router.new.route none .Get ("/a/b".data ++ ['/']) 0).2.route none .Get "/a/b".data 1).1 =
      .error "a route identical to this one has already been defined!" :=
  C1_trailing_slash_same_key Router.new
    (Router.new.route none .Get ("/a/b".data ++ ['/']) 0).2 none .Get "/a/b".data 0 1
    (by decide) (by decide)

/-- The router of the resolution scenario of C2: `/hello/world`
(domain `domain.com`, Post, handler 1), `/hello/puppet` (domain `domain.com`,
Patch, handler 2), `/goodbye/:id` (no domain, Delete, handler 3). -/
def findDemoRouter : Router :=
  (((Router.new.route (some "domain.com".data) .Post "/hello/world".data 1).2.route
      (some "domain.com".data) .Patch "/hello/puppet".data 2).2.route
      none .Delete "/goodbye/:id".data 3).2

/-- C2: on the three-route registry, resolving (Post, `domain.com`,
`/hello/world`) hits the first route; resolving (Delete, no domain,
`/goodbye/33`) hits the `/goodbye/:id` route and yields the parameter bag
mapping `id` to `Int 33`; resolving (Get, no domain, `/hello/world`) yields
`NotFound`.  (`Router::find` is modelled from spec §4.3; its implementation
is not under `src/`.) -/
theorem C2_resolution :
    findDemoRouter.find .Post "/hello/world".data (some "domain.com".data) =
      .ok (⟨some "domain.com".data, [], .Post, 1⟩, ⟨[]⟩) ∧
    findDemoRouter.find .Delete "/goodbye/33".data none =
      .ok (⟨none, [.Int "id".data], .Delete, 3⟩, ⟨[("id".data, .Int 33)]⟩) ∧
    (findDemoRouter.find .Delete "/goodbye/33".data none).map
      (fun pr => (pr.1.target, pr.2.get? "id".data)) = .ok (3, some (.Int 33)) ∧
    findDemoRouter.find .Get "/hello/world".data none = .error "not found!" := by
  decide

/-- The single-route registry used to exhibit the C3 divergence. -/
def dupDemoRouter : Router := (Router.new.route none .Get "/a".data 0).2

/-- C3: the code is *not* atomic on a duplicate: `HashMap::insert` runs before
the duplicate check, so the failing second registration of `/a` replaces the
stored handler (0 becomes 1) even though the duplicate error is returned —
the registry is changed by the failed call, contradicting the claim and the
spec's no-overwrite intent. -/
theorem C3_overwrite_on_duplicate :
    dupDemoRouter.routes = [(⟨none, [.Path "a".data], .Get⟩, ⟨none, [], .Get, 0⟩)] ∧
    (dupDemoRouter.route none .Get "/a".data 1).1 =
      .error "a route identical to this one has already been defined!" ∧
    (dupDemoRouter.route none .Get "/a".data 1).2.routes =
      [(⟨none, [.Path "a".data], .Get⟩, ⟨none, [], .Get, 1⟩)] := by
  decide

/-- C4, counterexample: `a.b.c` has at least two dot-separated nonempty
labels, no `*` and no whitespace, so the claim says it is accepted; the code
rejects it with `InvalidDomain` (the regex `([^.*\s]+\.[^.\s]+)+` cannot span
a single-character interior label). -/
theorem C4_counterexample :
    (Router.new.route (some "a.b.c".data) .Get "/p".data 0).1 =
      .error "invalid domain!" := by
  decide

/-- C4, amended: domain validation lowercases its input and accepts exactly
the strings matching the source regexes (one or more `X.Y` blocks, optionally
prefixed `*.`, where `X` is a nonempty run without `.`, `*` or whitespace and
`Y` a nonempty run without `.` or whitespace) — not exactly the two claimed
forms: every listed example behaves as claimed, but `a.b.c` (plain dotted,
star-free) is rejected and `a.b*` (contains `*`) is accepted. -/
theorem C4_domain_validation :
    ((Router.new.route (some "My-Cool-Domain.CO.uk".data) .Post "/some/path".data 5).1 =
      .ok () ∧
     (Router.new.route (some "My-Cool-Domain.CO.uk".data) .Post "/some/path".data
        5).2.routes.map (fun pr => pr.1.domain) = [some "my-cool-domain.co.uk".data]) ∧
    (Router.new.route (some "*.staging.mysite.something.com".data) .Post
      "/some/path".data 0).1 = .ok () ∧
    (Router.new.route (some ".bad.com".data) .Get "/p".data 0).1 =
      .error "invalid domain!" ∧
    (Router.new.route (some " bad.com".data) .Get "/p".data 0).1 =
      .error "invalid domain!" ∧
    (Router.new.route (some ".".data) .Get "/p".data 0).1 =
      .error "invalid domain!" ∧
    (Router.new.route (some ".com".data) .Get "/p".data 0).1 =
      .error "invalid domain!" ∧
    (Router.new.route (some "googl e.com".data) .Get "/p".data 0).1 =
      .error "invalid domain!" ∧
    (Router.new.route (some "a.b.c".data) .Get "/p".data 0).1 =
      .error "invalid domain!" ∧
    (Router.new.route (some "a.b*".data) .Get "/p".data 0).1 = .ok () := by
  decide

/-- C5, counterexample: the empty pattern does not start with `/`, yet the
path regex `(...)*/?` matches it vacuously, so registration succeeds rather
than failing with `InvalidFormat`. -/
theorem C5_counterexample :
    (Router.new.route none .Get "".data 0).1 = .ok () := by
  decide

/-- C5, amended: every *nonempty* pattern whose first character is not `/`
fails with `InvalidFormat`, and the router is unchanged; the empty pattern is
the one exception (it matches the pattern grammar vacuously). -/
theorem C5_leading_slash_required (r : Router) (d : Option (List Char)) (v : Verb)
    (c : Char) (cs : List Char) (t : Nat) (h : c ≠ '/') :
    Router.route r d v (c :: cs) t = (.error "invalid route format!", r) := by
  unfold Router.route
  rw [pathReg_head_not_slash h cs]
  simp

/-- C5, witness for the amended theorem at pattern `"x"`. -/
theorem C5_witness :
    Router.route Router.new none .Get ['x'] 0 =
      (.error "invalid route format!", Router.new) :=
  C5_leading_slash_required Router.new none .Get 'x' [] 0 (by decide)

/-- C6: registering a pattern whose (verb, domain, canonical segment-kind
sequence) equals that of an already registered route returns the duplicate
error, and the number of routes after the failed call equals the number after
the first call. -/
theorem C6_duplicate_registration (r r1 : Router) (d : Option (List Char))
    (v : Verb) (p1 p2 : List Char) (t1 t2 : Nat)
    (hok : Router.route r d v p1 t1 = (.ok (), r1))
    (hm2 : Rx.rmatch pathReg p2 = true)
    (hkey : (buildParts (tokensOf p2)).1 = (buildParts (tokensOf p1)).1) :
    (Router.route r1 d v p2 t2).1 =
      .error "a route identical to this one has already been defined!" ∧
    (Router.route r1 d v p2 t2).2.routes.length = r1.routes.length := by
  obtain ⟨hm1, dom, hd, hl, hr⟩ := route_ok_elim hok
  have hl2 : lookupRoute r1.routes ⟨dom, (buildParts (tokensOf p2)).1, v⟩ =
      some ⟨dom, (buildParts (tokensOf p1)).2, v, t1⟩ := by
    rw [hr, hkey]
    exact lookupRoute_insertRoute_self _ _ _
  exact route_dup hm2 hd hl2 t2

/-- C6, witness: registering `/x/y` twice (Get, no domain). -/
theorem C6_witness :
    (((Router.new.route none .Get "/x/y".data 0).2.route none .Get "/x/y".data 1).1 =
      .error "a route identical to this one has already been defined!") ∧
    ((Router.new.route none .Get "/x/y".data 0).2.route none .Get "/x/y".data
      1).2.routes.length = (Router.new.route none .Get "/x/y".data 0).2.routes.length :=
  C6_duplicate_registration Router.new (Router.new.route none .Get "/x/y".data 0).2
    none .Get "/x/y".data "/x/y".data 0 1 (by decide) (by decide) (by decide)

/-- C7: tokenizing `/some/#string/cool/;f/:id/:id2` yields the segment-kind
sequence [Literal some, String, Literal cool, Float, Int, Int] with the
placeholder names [string, f, id, id2]; in general a token starting with `:`
is an integer placeholder, `#` a string placeholder, `;` a float placeholder,
and the name is the remainder of the token after the marker. -/
theorem C7_tokenization :
    (Router.new.route none .Patch "/some/#string/cool/;f/:id/:id2".data 7).2.routes =
      [(⟨none, [.Path "some".data, .String, .Path "cool".data, .Float, .Int, .Int],
          .Patch⟩,
        ⟨none, [.String "string".data, .Float "f".data, .Int "id".data,
          .Int "id2".data], .Patch, 7⟩)] ∧
    (∀ (name : List Char) (toks : List (List Char)),
      buildParts ((':' :: name) :: toks) =
        (.Int :: (buildParts toks).1, .Int name :: (buildParts toks).2)) ∧
    (∀ (name : List Char) (toks : List (List Char)),
      buildParts (('#' :: name) :: toks) =
        (.String :: (buildParts toks).1, .String name :: (buildParts toks).2)) ∧
    (∀ (name : List Char) (toks : List (List Char)),
      buildParts ((';' :: name) :: toks) =
        (.Float :: (buildParts toks).1, .Float name :: (buildParts toks).2)) := by
  refine ⟨by decide, ?_, ?_, ?_⟩ <;> (intro name toks; simp [buildParts])

/-- C8: placeholder names do not affect route identity — if two valid
patterns have the same verb, domain and canonical segment-kind sequence but
different placeholder names, registering the first and then the second yields
the duplicate error on the second registration. -/
theorem C8_placeholder_names_not_identity (r r1 : Router) (d : Option (List Char))
    (v : Verb) (p1 p2 : List Char) (t1 t2 : Nat)
    (hok : Router.route r d v p1 t1 = (.ok (), r1))
    (hm2 : Rx.rmatch pathReg p2 = true)
    (hkey : (buildParts (tokensOf p2)).1 = (buildParts (tokensOf p1)).1)
    (_hnames : (buildParts (tokensOf p2)).2 ≠ (buildParts (tokensOf p1)).2) :
    (Router.route r1 d v p2 t2).1 =
      .error "a route identical to this one has already been defined!" := by
  obtain ⟨hm1, dom, hd, hl, hr⟩ := route_ok_elim hok
  have hl2 : lookupRoute r1.routes ⟨dom, (buildParts (tokensOf p2)).1, v⟩ =
      some ⟨dom, (buildParts (tokensOf p1)).2, v, t1⟩ := by
    rw [hr, hkey]
    exact lookupRoute_insertRoute_self _ _ _
  exact (route_dup hm2 hd hl2 t2).1

/-- C8, witness: `/a/:x` then `/a/:y` (Get, no domain) — same kinds,
different names, duplicate error. -/
theorem C8_witness :
    ((Router.new.route none .Get "/a/:x".data 0).2.route none .Get "/a/:y".data 1).1 =
      .error "a route identical to this one has already been defined!" :=
  C8_placeholder_names_not_identity Router.new
    (Router.new.route none .Get "/a/:x".data 0).2 none .Get "/a/:x".data "/a/:y".data
    0 1 (by decide) (by decide) (by decide) (by decide)

/-- C9: every successful registration preserves the invariant that each
stored route's placeholder-name list has exactly one entry per non-literal
part of its key, in the same order and of the same kind. -/
theorem C9_alignment_invariant (r r' : Router) (d : Option (List Char)) (v : Verb)
    (p : List Char) (t : Nat) (hinv : RouterInv r)
    (hok : Router.route r d v p t = (.ok (), r')) : RouterInv r' := by
  obtain ⟨hm, dom, hd, hl, hr⟩ := route_ok_elim hok
  intro q hq
  rw [hr] at hq
  rcases mem_insertRoute hq with h | h
  · subst h
    exact buildParts_aligned (tokensOf p)
  · exact hinv q h

/-- C9, witness: the invariant holds after registering `/a/:x` on the empty
router. -/
theorem C9_witness :
    RouterInv (Router.new.route none .Get "/a/:x".data 0).2 :=
  C9_alignment_invariant Router.new (Router.new.route none .Get "/a/:x".data 0).2
    none .Get "/a/:x".data 0 (by intro q hq; simp [Router.new] at hq) (by decide)

/-- C10: in a `UrlParams` bag, indexing by a key right after `add(key, value)`
returns that value (so a repeated `add` on the same key replaces the stored
value — last add wins), and an `add` leaves every other key's value
unchanged. -/
theorem C10_params_add (p : UrlParams) (k : List Char) (v : UrlParam) :
    (p.add k v).get? k = some v ∧
    ∀ k', k' ≠ k → (p.add k v).get? k' = p.get? k' := by
  constructor
  · exact lookupParam_insertParam_self p.hashmap k v
  · intro k' hk
    exact lookupParam_insertParam_other hk p.hashmap v

/-- C10, witness: adding `id ↦ Int 36` over a bag holding `name` returns
`Int 36` at `id` and leaves `name` unchanged. -/
theorem C10_witness :
    (((UrlParams.new.add "name".data (.String "sam".data)).add "id".data
      (.Int 36)).get? "id".data = some (.Int 36)) ∧
    ((UrlParams.new.add "name".data (.String "sam".data)).add "id".data
      (.Int 36)).get? "name".data =
      (UrlParams.new.add "name".data (.String "sam".data)).get? "name".data :=
  ⟨(C10_params_add (UrlParams.new.add "name".data (.String "sam".data))
      "id".data (.Int 36)).1,
   (C10_params_add (UrlParams.new.add "name".data (.String "sam".data))
      "id".data (.Int 36)).2 "name".data (by decide)⟩

end Bolts
